import Mathlib

/-!
Trainy: verification of the cross-provider journey resolution and merge engine.

Shallow embedding of the core of the `trainy` repository
(`src/unnamed/part_003` = `internationalApi.ts`, `src/unnamed/part_004` =
`journeyStore.ts`, `src/unnamed/part_005` = `nsApi.ts`,
`src/unnamed/part_006` = the provider registry, `src/unnamed/part_008` =
`types/train.ts`, `src/trainy-web/src/services/dbApi.ts` and the SBB adapter
inside `src/trainy-web/src/services/providers/types.ts`).

Modelling conventions:
* JavaScript ISO-8601 date strings are represented by their parsed epoch value
  in milliseconds (`Nat`); `new Date(s).getTime()` is the identity of the
  model.  The code always runs the dates through `new Date`, so only the
  instant is observable except where the ISO rendering itself is part of the
  output (journey keys), where we render the string with the proleptic
  Gregorian calendar exactly as `Date.prototype.toISOString` does (the
  embedding assumes a UTC environment, wall-clock = UTC).
* `undefined`/missing optional values are `Option.none`; JavaScript string
  truthiness (`""` is falsy) is modelled by `jsTruthy`.
* `Math.round` on a quotient is `⌊x + 1/2⌋` (ties towards +∞), implemented on
  integers with floor division.
* A JavaScript `Map` is an insertion-ordered association list: `get` searches
  by key, `set` of a fresh key appends, in-place mutation of a value found in
  the map updates the entry at its position.
* `async` adapter calls that can throw are `Except Unit` valued functions;
  a `try { … } catch { … }` is a `match` on that result.
-/

namespace Trainy

/-- JavaScript string truthiness for optional strings: `undefined`, `null`
and `""` are falsy. -/
def jsTruthy : Option String → Bool
  | none => false
  | some s => !s.data.isEmpty

/-- Model of `s.toLowerCase()` restricted to ASCII (the embedding's station names are
ASCII), as a kernel-computable character map. -/
def jsToLower (s : String) : String :=
  ⟨s.data.map Char.toLower⟩

/-- Model of `s.toUpperCase()` restricted to ASCII. -/
def jsToUpper (s : String) : String :=
  ⟨s.data.map Char.toUpper⟩

/-- Model of `s.trim()`: strip leading and trailing whitespace. -/
def jsTrim (s : String) : String :=
  ⟨((s.data.dropWhile Char.isWhitespace).reverse.dropWhile
      Char.isWhitespace).reverse⟩

/-- Whether `needle` occurs as a contiguous sublist of the second argument. -/
def hasSublist (needle : List Char) : List Char → Bool
  | [] => needle.isEmpty
  | c :: t => needle.isPrefixOf (c :: t) || hasSublist needle t

/-- JavaScript `a.includes(b)`: `b` occurs as a contiguous substring of
`a`. -/
def jsIncludes (a b : String) : Bool :=
  hasSublist b.data a.data

/-- Model of `s.replace(/\s/g, "")`: remove every whitespace character. -/
def stripSpaces (s : String) : String :=
  ⟨s.data.filter (fun c => !c.isWhitespace)⟩

/-- Model of `Math.round(num / den)` for an integer numerator and a positive even
integer denominator: floor of the quotient plus one half, ties rounding
towards `+∞` exactly as JavaScript's `Math.round`. -/
def jsRoundDiv (num : Int) (den : Int) : Int :=
  (num + den / 2) / den

-- =============================================================================
-- Per-adapter delay-minute helpers (claim C7 sources)
-- =============================================================================

/-- Model of `calculateDelayMinutes` from `src/trainy-web/src/services/dbApi.ts`
(lines 181–188): difference of the two instants in ms; a missing argument or a
non-positive difference yields `undefined`, otherwise
`Math.round(diffMs / 60000)`. -/
def calculateDelayMinutes (scheduled actual : Option Nat) : Option Int :=
  match scheduled, actual with
  | some s, some a =>
      let diffMs : Int := (a : Int) - (s : Int)
      if diffMs ≤ 0 then none else some (jsRoundDiv diffMs 60000)
  | _, _ => none

/-- Model of `toDelayMinutes` from the SBB adapter (`providers/types.ts` source lines
270–276): `Math.round((prognosisTime - scheduledTime) / 60000)` whenever both
instants are given, with no clamping of non-positive differences. -/
def toDelayMinutes (scheduled prognosis : Option Nat) : Option Int :=
  match scheduled, prognosis with
  | some s, some p => some (jsRoundDiv ((p : Int) - (s : Int)) 60000)
  | _, _ => none

/-- Model of `toMinutes` from the NS adapter (`src/unnamed/part_005` lines 117–122):
converts an API-provided delay in seconds to minutes with `Math.round`, no
clamping. -/
def toMinutes (seconds : Option Int) : Option Int :=
  match seconds with
  | none => none
  | some s => some (jsRoundDiv s 60)

-- =============================================================================
-- ISO-8601 rendering (`Date.prototype.toISOString`)
-- =============================================================================

/-- Decimal rendering padded to two digits. -/
def pad2 (n : Nat) : String :=
  if n < 10 then "0" ++ toString n else toString n

/-- Decimal rendering padded to four digits. -/
def pad4 (n : Nat) : String :=
  if n < 10 then "000" ++ toString n
  else if n < 100 then "00" ++ toString n
  else if n < 1000 then "0" ++ toString n
  else toString n

/-- Proleptic Gregorian civil date `(year, month, day)` from a number of days
since 1970-01-01 (Howard Hinnant's `civil_from_days`). -/
def civilFromDays (z0 : Nat) : Nat × Nat × Nat :=
  let z := z0 + 719468
  let era := z / 146097
  let doe := z % 146097
  let yoe := (doe - doe / 1460 + doe / 36524 - doe / 146096) / 365
  let y := yoe + era * 400
  let doy := doe - (365 * yoe + yoe / 4 - yoe / 100)
  let mp := (5 * doy + 2) / 153
  let d := doy - (153 * mp + 2) / 5 + 1
  let m := if mp < 10 then mp + 3 else mp - 9
  (if m ≤ 2 then y + 1 else y, m, d)

/-- Model of `new Date(t).toISOString().slice(0, 19)`: the UTC instant `t` (epoch
milliseconds) rendered as `YYYY-MM-DDTHH:MM:SS`, truncated to whole
seconds. -/
def isoSeconds (t : Nat) : String :=
  let days := t / 86400000
  let msod := t % 86400000
  let ymd := civilFromDays days
  pad4 ymd.1 ++ "-" ++ pad2 ymd.2.1 ++ "-" ++ pad2 ymd.2.2 ++ "T" ++
    pad2 (msod / 3600000) ++ ":" ++ pad2 (msod % 3600000 / 60000) ++ ":" ++
    pad2 (msod % 60000 / 1000)

/-- Model of `new Date(t).toISOString().slice(0, 16)`: the same rendering truncated to
whole minutes, as used by the in-memory merge key. -/
def isoMinutes (t : Nat) : String :=
  ⟨(isoSeconds t).data.take 16⟩

example : isoSeconds 0 = "1970-01-01T00:00:00" := by decide
example : isoSeconds 1768644120000 = "2026-01-17T10:02:00" := by decide

-- =============================================================================
-- Data model (`src/unnamed/part_008` = types/train.ts, stationRegistry.ts)
-- =============================================================================

/-- Model of `ProviderID` from `providers/types.ts`. -/
inductive ProviderID where
  | NS | DB | SNCF | OBB | SBB
  deriving DecidableEq, Repr

/-- The provider id as the string literal the code uses. -/
def ProviderID.str : ProviderID → String
  | .NS => "NS" | .DB => "DB" | .SNCF => "SNCF" | .OBB => "OBB" | .SBB => "SBB"

/-- Model of `Station` from types/train.ts. -/
structure Station where
  code : String
  name : String
  country : String
  uicCode : Option String := none
  deriving DecidableEq, Repr

/-- Model of `JourneyStop` from types/train.ts; `source` is the dynamic property the
SBB enrichment adds (`stop.source = "SBB"`), absent on adapter output. -/
structure JourneyStop where
  station : Station
  scheduledArrival : Option Nat := none
  scheduledDeparture : Option Nat := none
  platform : Option String := none
  plannedPlatform : Option String := none
  actualPlatform : Option String := none
  departureDelay : Option Int := none
  arrivalDelay : Option Int := none
  cancelled : Option Bool := none
  source : Option String := none
  deriving DecidableEq, Repr

/-- Model of `JourneyStatus` from types/train.ts. -/
inductive JourneyStatus where
  | scheduled | delayed | cancelled | departed | arrived
  deriving DecidableEq, Repr

/-- Model of `Journey` from types/train.ts (`rawData` is debugging-only and omitted). -/
structure Journey where
  id : String
  trainNumber : String
  trainType : String
  operator : String
  departure : JourneyStop
  arrival : JourneyStop
  stops : List JourneyStop
  duration : Int
  status : JourneyStatus
  apiSource : String
  deriving DecidableEq, Repr

/-- The sparse `providerIds` record of a `UnifiedStation`. -/
structure ProviderIdMap where
  NS : Option String := none
  DB : Option String := none
  SNCF : Option String := none
  OBB : Option String := none
  SBB : Option String := none
  deriving DecidableEq, Repr

/-- Model of `station.providerIds[pid]`. -/
def ProviderIdMap.get (m : ProviderIdMap) : ProviderID → Option String
  | .NS => m.NS | .DB => m.DB | .SNCF => m.SNCF | .OBB => m.OBB | .SBB => m.SBB

/-- Model of `UnifiedStation` from `data/stationRegistry.ts` (coordinates are
informational only and omitted). -/
structure UnifiedStation where
  id : String
  displayName : String
  country : String
  providerIds : ProviderIdMap := {}
  deriving DecidableEq, Repr

-- =============================================================================
-- Provider registry (`src/unnamed/part_006`)
-- =============================================================================

/-- Model of `COUNTRY_PROVIDERS` from the provider registry: record lookup by country
code; an unknown country yields `undefined`. -/
def COUNTRY_PROVIDERS : String → Option ProviderID
  | "NL" => some .NS
  | "DE" => some .DB
  | "FR" => some .SNCF
  | "AT" => some .OBB
  | "CH" => some .SBB
  | "BE" => some .NS
  | _ => none

/-- Which entries of the `PROVIDERS` record are non-null: only `nsProvider`
and `dbProvider` are registered; SNCF, OBB and SBB are `null`. -/
def providerActive : ProviderID → Bool
  | .NS => true
  | .DB => true
  | _ => false

/-- Model of `getProviderForCountry` from the provider registry (part_006 lines
117–120), projected to the provider's `id` — the only field the merge engine
reads from it. `null` results (unknown country, or a country whose provider is
not registered) are `none`. -/
def getProviderForCountry (country : String) : Option ProviderID :=
  match COUNTRY_PROVIDERS country with
  | some pid => if providerActive pid then some pid else none
  | none => none

-- =============================================================================
-- Journey matcher and merge engine (`src/unnamed/part_003` lines 572–748)
-- =============================================================================

/-- Model of `MergedJourneyData` from part_003 lines 572–585. -/
structure MergedJourneyData where
  trainNumber : String
  trainType : String
  operator : String
  departure : JourneyStop
  arrival : JourneyStop
  stops : List JourneyStop
  duration : Int
  status : JourneyStatus
  sources : List ProviderID
  nsRawId : Option String := none
  dbRawId : Option String := none
  sbbRawId : Option String := none
  deriving DecidableEq, Repr

/-- A raw journey candidate tagged with its source provider, as pushed onto
`allJourneys` in `searchJourneys`. -/
structure SourcedJourney where
  source : ProviderID
  journey : Journey
  deriving DecidableEq, Repr

/-- Model of `generateMergeKey` (part_003 lines 665–681): normalized
`trainType + trainNumber` with whitespace stripped, plus the scheduled
departure rounded to the nearest 5-minute bucket rendered to minute
precision; just the train id when the departure time is missing. -/
def generateMergeKey (journey : Journey) : String :=
  let trainId := stripSpaces (journey.trainType ++ journey.trainNumber)
  match journey.departure.scheduledDeparture with
  | none => trainId
  | some t =>
      let minutes := t / 60000 % 60
      let rounded := (2 * minutes + 5) / 10 * 5
      let bucket := t / 3600000 * 3600000 + rounded * 60000
      trainId ++ "-" ++ isoMinutes bucket

/-- Model of `{ ...a, ...b }` on two adapter-produced journey stops. The
JavaScript spread takes `b`'s value for every key `b`'s object carries and
keeps `a`'s value for the rest, and which keys a stop object carries depends
on the adapter construction site: NS `mapStop` and DB `mapTimetableStop` are
literals binding every `JourneyStop` key, but DB's ppth-derived stops
(`parsePathToStops`, the `buildFullRouteFromPpth` current-station literal,
the `searchJourneys` arrival overwrite) bind only a subset — in particular
DB-built arrival stops omit the scheduled-arrival/delay/cancelled keys, which
therefore survive from the existing stop. The flattened model identifies a
key bound to `undefined` with an absent key, so the spread is modelled field
by field as: the candidate's value when it supplies one, the existing stop's
value otherwise. This coincides with the JavaScript result on every key the
candidate binds to a defined value and on every key it omits; the one
difference the flattening cannot express — a key explicitly bound to
`undefined` clobbering an existing defined value — is identified with the
absent-key (survival) case. `station` is mandatory in every stop literal and
is always replaced. -/
def spreadStop (a b : JourneyStop) : JourneyStop where
  station := b.station
  scheduledArrival := b.scheduledArrival.orElse (fun _ => a.scheduledArrival)
  scheduledDeparture := b.scheduledDeparture.orElse (fun _ => a.scheduledDeparture)
  platform := b.platform.orElse (fun _ => a.platform)
  plannedPlatform := b.plannedPlatform.orElse (fun _ => a.plannedPlatform)
  actualPlatform := b.actualPlatform.orElse (fun _ => a.actualPlatform)
  departureDelay := b.departureDelay.orElse (fun _ => a.departureDelay)
  arrivalDelay := b.arrivalDelay.orElse (fun _ => a.arrivalDelay)
  cancelled := b.cancelled.orElse (fun _ => a.cancelled)
  source := b.source.orElse (fun _ => a.source)

/-- Find the first element satisfying `p` and replace it by its image under
`f`, leaving everything else in place; `none` when no element satisfies `p`.
This models the JavaScript pattern "find an element of an insertion-ordered
collection, then mutate it in place". -/
def updateFirst (p : α → Bool) (f : α → α) : List α → Option (List α)
  | [] => none
  | x :: t => if p x then some (f x :: t) else (updateFirst p f t).map (x :: ·)

/-- Copying the three platform fields of `ns` onto `ms`
(part_003 lines 737–739). -/
def platformCopy (ms ns : JourneyStop) : JourneyStop :=
  { ms with
    platform := ns.platform
    plannedPlatform := ns.plannedPlatform
    actualPlatform := ns.actualPlatform }

/-- One iteration of the platform-merging walk in `mergeIntoExisting`
(part_003 lines 730–741): find the first existing stop whose station name
matches the new stop's case-insensitively; if it has no (truthy) platform and
the new stop has one, copy the three platform fields onto it. -/
def applyStopPlatform (stops : List JourneyStop) (newStop : JourneyStop) :
    List JourneyStop :=
  match updateFirst
      (fun s => jsToLower s.station.name == jsToLower newStop.station.name)
      (fun ms =>
        if !jsTruthy ms.platform && jsTruthy newStop.platform then
          platformCopy ms newStop
        else ms)
      stops with
  | some stops' => stops'
  | none => stops

/-- The `for (const newStop of newJourney.stops)` walk of part_003 lines
730–741. -/
def mergeStopPlatforms (stops newStops : List JourneyStop) : List JourneyStop :=
  newStops.foldl applyStopPlatform stops

/-- Model of `mergeIntoExisting`, step 1 (part_003 lines 694–697): append `newSource`
to `sources` if not already present. -/
def mergeSourcesStep (e : MergedJourneyData) (newSource : ProviderID) :
    MergedJourneyData :=
  { e with sources :=
      if e.sources.contains newSource then e.sources
      else e.sources ++ [newSource] }

/-- Model of `mergeIntoExisting`, step 2 (part_003 lines 699–706): record the incoming
journey's provider-native raw id. -/
def mergeRawIdStep (e : MergedJourneyData) (newJourney : Journey)
    (newSource : ProviderID) : MergedJourneyData :=
  match newSource with
  | .NS => { e with nsRawId := some newJourney.id }
  | .DB => { e with dbRawId := some newJourney.id }
  | .SBB => { e with sbbRawId := some newJourney.id }
  | _ => e

/-- Model of `mergeIntoExisting`, step 3 (part_003 lines 712–717): adopt the departure
stop of the provider authoritative for the origin country when it has a
platform and the existing one does not. -/
def mergeDepartureStep (e : MergedJourneyData) (newJourney : Journey)
    (newSource : ProviderID) (fromStation : UnifiedStation) :
    MergedJourneyData :=
  if getProviderForCountry fromStation.country == some newSource &&
      jsTruthy newJourney.departure.platform &&
      !jsTruthy e.departure.platform then
    { e with departure := spreadStop e.departure newJourney.departure }
  else e

/-- Model of `mergeIntoExisting`, step 4 (part_003 lines 719–724): the symmetric rule
for the arrival stop and the destination country. -/
def mergeArrivalStep (e : MergedJourneyData) (newJourney : Journey)
    (newSource : ProviderID) (toStation : UnifiedStation) :
    MergedJourneyData :=
  if getProviderForCountry toStation.country == some newSource &&
      jsTruthy newJourney.arrival.platform &&
      !jsTruthy e.arrival.platform then
    { e with arrival := spreadStop e.arrival newJourney.arrival }
  else e

/-- Model of `mergeIntoExisting`, step 5 (part_003 lines 726–742): the strictly longer
stop list wins wholesale; otherwise platform data is merged into the existing
stops. -/
def mergeStopsStep (e : MergedJourneyData) (newJourney : Journey) :
    MergedJourneyData :=
  if newJourney.stops.length > e.stops.length then
    { e with stops := newJourney.stops }
  else
    { e with stops := mergeStopPlatforms e.stops newJourney.stops }

/-- Model of `mergeIntoExisting`, step 6 (part_003 lines 744–748): adopt a
non-`scheduled` status while the merged status is still `scheduled`. -/
def mergeStatusStep (e : MergedJourneyData) (newJourney : Journey) :
    MergedJourneyData :=
  if newJourney.status != .scheduled && e.status == .scheduled then
    { e with status := newJourney.status }
  else e

/-- Model of `mergeIntoExisting` (part_003 lines 687–748): the six sequential
mutations of the existing merged journey, in source order. -/
def mergeIntoExisting (existing : MergedJourneyData) (newJourney : Journey)
    (newSource : ProviderID) (fromStation toStation : UnifiedStation) :
    MergedJourneyData :=
  mergeStatusStep
    (mergeStopsStep
      (mergeArrivalStep
        (mergeDepartureStep
          (mergeRawIdStep (mergeSourcesStep existing newSource) newJourney newSource)
          newJourney newSource fromStation)
        newJourney newSource toStation)
      newJourney)
    newJourney

/-- The secondary (fuzzy) match predicate of `mergeJourneys` (part_003 lines
607–628): same train number, the existing set's recorded scheduled arrival
within 20 minutes of the candidate's, and the existing set's destination name
(lowercased, trimmed) equal to or containing the searched destination
station's display name — or the existing set's arrival station code
(lowercased) equal to the searched destination station's id (lowercased,
trimmed). -/
def secondaryMatches (toStation : UnifiedStation) (journey : Journey)
    (arrivalMillis : Nat) (candidate : MergedJourneyData) : Bool :=
  if candidate.trainNumber != journey.trainNumber then false
  else
    match candidate.arrival.scheduledArrival with
    | none => false
    | some ca =>
        if ((ca : Int) - (arrivalMillis : Int)).natAbs > 20 * 60000 then false
        else
          let candidateDestName := jsTrim (jsToLower candidate.arrival.station.name)
          let destinationName := jsTrim (jsToLower toStation.displayName)
          let destinationId := jsTrim (jsToLower toStation.id)
          candidateDestName == destinationName ||
            jsIncludes candidateDestName destinationName ||
            jsToLower candidate.arrival.station.code == destinationId

/-- The fresh `MergedJourneyData` built for an unmatched candidate (part_003
lines 640–654). -/
def freshMerged (source : ProviderID) (journey : Journey) : MergedJourneyData where
  trainNumber := journey.trainNumber
  trainType := journey.trainType
  operator := journey.operator
  departure := journey.departure
  arrival := journey.arrival
  stops := journey.stops
  duration := journey.duration
  status := journey.status
  sources := [source]
  nsRawId := if source == .NS then some journey.id else none
  dbRawId := if source == .DB then some journey.id else none
  sbbRawId := if source == .SBB then some journey.id else none

/-- One iteration of the `for (const { source, journey } of journeys)` loop of
`mergeJourneys` (part_003 lines 598–656) over the insertion-ordered `byKey`
map: primary lookup by merge key, then — when the candidate has a nonempty
train number and a scheduled arrival — the fuzzy secondary scan over the
existing sets in insertion order; a hit is merged in place, a miss appends a
fresh singleton under the candidate's key. -/
def mergeStep (fromStation toStation : UnifiedStation)
    (byKey : List (String × MergedJourneyData)) (c : SourcedJourney) :
    List (String × MergedJourneyData) :=
  let key := generateMergeKey c.journey
  let doMerge := fun (e : String × MergedJourneyData) =>
    (e.1, mergeIntoExisting e.2 c.journey c.source fromStation toStation)
  match updateFirst (fun e => e.1 == key) doMerge byKey with
  | some byKey' => byKey'
  | none =>
      let viaSecondary :=
        match c.journey.arrival.scheduledArrival with
        | some arrivalMillis =>
            if c.journey.trainNumber.data.isEmpty then none
            else updateFirst
              (fun e => secondaryMatches toStation c.journey arrivalMillis e.2)
              doMerge byKey
        | none => none
      match viaSecondary with
      | some byKey' => byKey'
      | none => byKey ++ [(key, freshMerged c.source c.journey)]

/-- Model of `mergeJourneys` (part_003 lines 591–659): fold the candidates into the
`byKey` map and return `Array.from(byKey.values())`. -/
def mergeJourneys (journeys : List SourcedJourney)
    (fromStation toStation : UnifiedStation) : List MergedJourneyData :=
  (journeys.foldl (mergeStep fromStation toStation) []).map (·.2)

/-- The insertion-ordered keys of the `byKey` map built by `mergeJourneys`. -/
def mergeJourneysKeys (journeys : List SourcedJourney)
    (fromStation toStation : UnifiedStation) : List String :=
  (journeys.foldl (mergeStep fromStation toStation) []).map (·.1)

-- =============================================================================
-- Journey fan-out orchestrator (`src/unnamed/part_003` lines 205–456)
-- =============================================================================

/-- The external collaborators `searchJourneys` talks to besides the selected
providers: the raw SBB client (`sbbApi.searchJourneys`, an HTTP call that can
throw) and the station registry lookup `findStationsByName`. -/
structure OrchestratorEnv where
  sbbSearchJourneys : String → String → Nat → Except Unit (List Journey)
  findStationsByName : String → List UnifiedStation

/-- A provider adapter as used by the orchestrator loop: the fields of the
`TrainProvider` interface that `searchJourneys` reads, with the fallible
`searchJourneys(params)` call as an `Except`-valued function of
`(from, to, dateTime)`. -/
structure ProviderM where
  id : ProviderID
  country : String
  supportsNameQuery : Bool := false
  toProviderStationId : UnifiedStation → Option String
  searchJourneys : String → String → Nat → Except Unit (List Journey)

/-- The SBB platform-enrichment block of `searchJourneys` (part_003 lines
249–402), applied to the first journey returned by NS: locate a Swiss stop,
resolve it in the registry, query SBB from there to the destination, pick the
first SBB journey arriving within 20 minutes whose destination matches, and
splice its arrival platform fields into the first journey's arrival and every
stop whose name flexibly matches the destination, marking those stops'
`source` as `"SBB"`. All failures leave the journey unchanged. -/
def sbbEnrichFirst (env : OrchestratorEnv) (toStation : UnifiedStation)
    (dateTime : Nat) (firstJourney : Journey) : Journey :=
  let arrivalDateTime := firstJourney.arrival.scheduledArrival.getD dateTime
  match firstJourney.stops.find?
      (fun stop => jsToUpper stop.station.country == "CH") with
  | none => firstJourney
  | some swissStop =>
      match (env.findStationsByName swissStop.station.name).head? with
      | none => firstJourney
      | some registryMatch =>
          if jsTruthy (registryMatch.providerIds.get .SBB) &&
              jsTruthy (toStation.providerIds.get .SBB) then
            match env.sbbSearchJourneys
                ((registryMatch.providerIds.get .SBB).getD "")
                ((toStation.providerIds.get .SBB).getD "")
                (swissStop.scheduledDeparture.getD arrivalDateTime) with
            | .error _ => firstJourney
            | .ok swissJourneys =>
                let matching := swissJourneys.find? (fun j =>
                  match j.arrival.scheduledArrival,
                      firstJourney.arrival.scheduledArrival with
                  | some sa, some ba =>
                      decide (((sa : Int) - (ba : Int)).natAbs ≤ 20 * 60000) &&
                        (jsIncludes (jsToLower j.arrival.station.name)
                            (jsToLower toStation.displayName) ||
                          jsToLower j.arrival.station.code ==
                            jsToLower toStation.id)
                  | _, _ => false)
                match matching with
                | none => firstJourney
                | some mj =>
                    let swissArrival := mj.arrival
                    if jsTruthy swissArrival.platform ||
                        jsTruthy swissArrival.plannedPlatform ||
                        jsTruthy swissArrival.actualPlatform then
                      { firstJourney with
                        arrival := { firstJourney.arrival with
                          platform := swissArrival.platform.orElse
                            (fun _ => firstJourney.arrival.platform)
                          plannedPlatform := swissArrival.plannedPlatform.orElse
                            (fun _ => firstJourney.arrival.plannedPlatform)
                          actualPlatform := swissArrival.actualPlatform.orElse
                            (fun _ => firstJourney.arrival.actualPlatform) }
                        stops := firstJourney.stops.map (fun stop =>
                          let stopNameLower := jsToLower stop.station.name
                          let destNameLower := jsToLower toStation.displayName
                          if jsIncludes stopNameLower destNameLower ||
                              jsIncludes destNameLower stopNameLower ||
                              jsIncludes (stripSpaces stopNameLower)
                                (stripSpaces destNameLower) then
                            { stop with
                              platform := swissArrival.platform.orElse
                                (fun _ => stop.platform)
                              plannedPlatform :=
                                swissArrival.plannedPlatform.orElse
                                  (fun _ => stop.plannedPlatform)
                              actualPlatform :=
                                swissArrival.actualPlatform.orElse
                                  (fun _ => stop.actualPlatform)
                              source := some "SBB" }
                          else stop) }
                    else firstJourney
          else firstJourney

/-- The body of the `for (const provider of providersToQuery)` loop of
`searchJourneys` (part_003 lines 229–425): the candidates the provider
contributes to `allJourneys`. A missing station id skips the provider; a
throwing `searchJourneys` call is caught per provider and contributes nothing;
NS journeys to an SBB-covered destination are enriched; the display-name
fallback query (lines 403–417) is issued when the id-based query returned
nothing, the provider supports name queries and its home country differs from
the origin's — but its result is never assigned, so it contributes nothing. -/
def providerContribution (env : OrchestratorEnv)
    (fromStation toStation : UnifiedStation) (dateTime : Nat)
    (provider : ProviderM) : List SourcedJourney :=
  let fromId := provider.toProviderStationId fromStation
  let toId := provider.toProviderStationId toStation
  if !(jsTruthy fromId && jsTruthy toId) then []
  else
    match provider.searchJourneys (fromId.getD "") (toId.getD "") dateTime with
    | .error _ => []
    | .ok journeys =>
        let journeys :=
          if provider.id == .NS && jsTruthy (toStation.providerIds.get .SBB)
              && journeys.length > 0 then
            match journeys with
            | [] => journeys
            | first :: rest => sbbEnrichFirst env toStation dateTime first :: rest
          else journeys
        let _fallback :=
          if journeys.length == 0 && provider.supportsNameQuery &&
              provider.country != fromStation.country then
            provider.searchJourneys fromStation.displayName
              toStation.displayName dateTime
          else Except.ok []
        journeys.map (fun j => ⟨provider.id, j⟩)

/-- The whole provider loop of `searchJourneys`: accumulate each selected
provider's contribution into `allJourneys`, in order. -/
def collectAllJourneys (env : OrchestratorEnv) (providers : List ProviderM)
    (fromStation toStation : UnifiedStation) (dateTime : Nat) :
    List SourcedJourney :=
  providers.foldl
    (fun acc p => acc ++ providerContribution env fromStation toStation dateTime p)
    []

-- =============================================================================
-- Journey key and persistence (`src/unnamed/part_008` lines 167–176,
-- `src/unnamed/part_003` lines 757–807, `src/unnamed/part_004`)
-- =============================================================================

/-- Model of `generateJourneyKey` from types/train.ts: the scheduled departure is
normalised to ISO format without milliseconds
(`new Date(s).toISOString().slice(0, 19)`). -/
def generateJourneyKey (trainType trainNumber originStationId : String)
    (scheduledDeparture : Nat) : String :=
  trainType ++ trainNumber ++ "_" ++ originStationId ++ "_" ++
    isoSeconds scheduledDeparture

/-- Model of `s.replace(/\s+/g, "-")`: each maximal run of whitespace becomes a single
dash. -/
def dashWhitespaceRuns : List Char → List Char
  | [] => []
  | [c] => if c.isWhitespace then ['-'] else [c]
  | a :: b :: t =>
      if a.isWhitespace then
        if b.isWhitespace then dashWhitespaceRuns (b :: t)
        else '-' :: dashWhitespaceRuns (b :: t)
      else a :: dashWhitespaceRuns (b :: t)

/-- Model of `name.toLowerCase().replace(/\s+/g, "-")`, the ad-hoc station-id slug of
`toStoredJourneyInput`. -/
def slugName (s : String) : String :=
  ⟨dashWhitespaceRuns (jsToLower s).data⟩

/-- A stop of `StoredJourneyInput` (types/train.ts `StoredJourneyStop` minus
the database-generated `id`/`journeyId`). -/
structure StoredStopInput where
  sequence : Nat
  stationId : String
  stationName : String
  country : String
  scheduledArrival : Option Nat := none
  scheduledDeparture : Option Nat := none
  arrivalDelayMin : Option Int := none
  departureDelayMin : Option Int := none
  plannedPlatform : Option String := none
  actualPlatform : Option String := none
  source : Option String := none
  cancelled : Bool := false
  deriving DecidableEq, Repr

/-- Model of `StoredJourneyInput` from types/train.ts. -/
structure StoredJourneyInput where
  journeyKey : String
  trainNumber : String
  trainType : String
  operator : String
  originStationId : String
  originStationName : String
  destinationStationId : String
  destinationStationName : String
  scheduledDeparture : Nat
  scheduledArrival : Option Nat := none
  durationMinutes : Int
  status : JourneyStatus
  sources : List ProviderID
  nsRawId : Option String := none
  dbRawId : Option String := none
  sbbRawId : Option String := none
  stops : List StoredStopInput
  deriving DecidableEq, Repr

/-- Model of `toStoredJourneyInput` (part_003 lines 757–807). `now` stands for
`new Date().toISOString()`, the fallback used when the merged journey has no
scheduled departure (the code evaluates it twice; the instants coincide at
this granularity). -/
def toStoredJourneyInput (merged : MergedJourneyData)
    (fromStation toStation : UnifiedStation) (now : Nat) : StoredJourneyInput :=
  let journeyKey := generateJourneyKey merged.trainType merged.trainNumber
    fromStation.id (merged.departure.scheduledDeparture.getD now)
  { journeyKey := journeyKey
    trainNumber := merged.trainNumber
    trainType := merged.trainType
    operator := merged.operator
    originStationId := fromStation.id
    originStationName := fromStation.displayName
    destinationStationId := toStation.id
    destinationStationName := toStation.displayName
    scheduledDeparture := merged.departure.scheduledDeparture.getD now
    scheduledArrival := merged.arrival.scheduledArrival
    durationMinutes := merged.duration
    status := merged.status
    sources := merged.sources
    nsRawId := merged.nsRawId
    dbRawId := merged.dbRawId
    sbbRawId := merged.sbbRawId
    stops := merged.stops.enum.map (fun iStop =>
      { sequence := iStop.1
        stationId :=
          if iStop.2.station.code.data.isEmpty then slugName iStop.2.station.name
          else iStop.2.station.code
        stationName := iStop.2.station.name
        country :=
          if iStop.2.station.country.data.isEmpty then "XX"
          else iStop.2.station.country
        scheduledArrival := iStop.2.scheduledArrival
        scheduledDeparture := iStop.2.scheduledDeparture
        arrivalDelayMin := iStop.2.arrivalDelay
        departureDelayMin := iStop.2.departureDelay
        plannedPlatform := iStop.2.plannedPlatform
        actualPlatform := iStop.2.actualPlatform
        source := iStop.2.source.orElse
          (fun _ => merged.sources.head?.map ProviderID.str)
        cancelled := iStop.2.cancelled.getD false }) }

/-- A stored row of the `journeys` table (together with its stops), as far as
the upsert logic observes it: a database id and the journey content. -/
structure StoredRow where
  id : Nat
  input : StoredJourneyInput
  deriving DecidableEq, Repr

/-- Model of `storeJourney` (part_004 lines 131–218) with the Supabase table modelled
as an insertion-ordered list of rows and `nextId` the id generator:
`findJourneyByKey` looks the key up; an existing row is updated in place
(`updateJourney` overwrites the row's content, keeping its id), otherwise a
fresh row is inserted. -/
def storeJourney (db : List StoredRow) (nextId : Nat)
    (input : StoredJourneyInput) : List StoredRow × Nat :=
  match updateFirst (fun r => r.input.journeyKey == input.journeyKey)
      (fun r => { r with input := input }) db with
  | some db' => (db', nextId)
  | none => (db ++ [{ id := nextId, input := input }], nextId + 1)

-- =============================================================================
-- Specification-side predicates (for the refinement comparisons)
-- =============================================================================

/-- The secondary-match criterion exactly as the specification sentence words
it: the candidate shares the set's train number, the two scheduled arrivals
differ by at most 20 minutes, and the candidate's destination station name
equals, contains, or is contained by the existing set's destination name — or
its native code matches the destination station's id. -/
def claimedSecondaryMatch (toStation : UnifiedStation)
    (existingSet : MergedJourneyData) (candidate : Journey) : Bool :=
  candidate.trainNumber == existingSet.trainNumber &&
  (match candidate.arrival.scheduledArrival,
      existingSet.arrival.scheduledArrival with
   | some a, some b => decide (((a : Int) - (b : Int)).natAbs ≤ 20 * 60000)
   | _, _ => false) &&
  (let cn := jsTrim (jsToLower candidate.arrival.station.name)
   let en := jsTrim (jsToLower existingSet.arrival.station.name)
   cn == en || jsIncludes cn en || jsIncludes en cn ||
     jsToLower candidate.arrival.station.code == jsTrim (jsToLower toStation.id))

/-- The amended secondary criterion, following what the code actually tests:
same train number, both scheduled arrivals present and at most 20 minutes
apart, and the existing set's destination name (lowercased, trimmed) equal to
or containing the searched destination station's display name — or the
existing set's arrival station code (lowercased) equal to the searched
destination station's id (lowercased, trimmed). -/
def amendedSecondaryMatch (toStation : UnifiedStation)
    (existingSet : MergedJourneyData) (candidate : Journey) : Bool :=
  candidate.trainNumber == existingSet.trainNumber &&
  (match candidate.arrival.scheduledArrival,
      existingSet.arrival.scheduledArrival with
   | some a, some b => decide (((a : Int) - (b : Int)).natAbs ≤ 20 * 60000)
   | _, _ => false) &&
  (let en := jsTrim (jsToLower existingSet.arrival.station.name)
   let dn := jsTrim (jsToLower toStation.displayName)
   en == dn || jsIncludes en dn ||
     jsToLower existingSet.arrival.station.code == jsTrim (jsToLower toStation.id))

/-- The amended criterion together with its gate: the fuzzy scan only runs for
candidates with a nonempty train number (the scheduled-arrival gate is part of
`amendedSecondaryMatch` itself). -/
def amendedSecondaryApplies (toStation : UnifiedStation)
    (existingSet : MergedJourneyData) (candidate : Journey) : Bool :=
  !candidate.trainNumber.data.isEmpty &&
    amendedSecondaryMatch toStation existingSet candidate

/-- The per-key insertion used to describe which merge keys the `byKey` map
accumulates when only the primary key is in play. -/
def insertKey (acc : List String) (k : String) : List String :=
  if k ∈ acc then acc else acc ++ [k]

-- =============================================================================
-- Concrete instances used by witnesses and counterexamples
-- =============================================================================

/-- Origin station of the running example: Amsterdam Centraal. -/
def fsAms : UnifiedStation :=
  { id := "amsterdam-centraal", displayName := "Amsterdam Centraal", country := "NL" }

/-- Destination station of the running example: Zürich HB (ASCII name so that
the embedding's ASCII `toLower` matches JavaScript's). -/
def tsZur : UnifiedStation :=
  { id := "zurich-hb", displayName := "Zurich HB", country := "CH" }

def stnZurich : Station := { code := "", name := "Zurich HB", country := "CH" }

def stnElse : Station := { code := "", name := "Elsewhere", country := "CH" }

def stnBasel : Station := { code := "", name := "Basel SBB", country := "CH" }

/-- Candidate arriving at the searched destination, departing 10:00 UTC. -/
def jZur : Journey :=
  { id := "x"
    trainNumber := "123"
    trainType := "IC"
    operator := "IntOp"
    departure := { station := stnZurich, scheduledDeparture := some 1768644000000 }
    arrival := { station := stnZurich, scheduledArrival := some 1768661880000 }
    stops := []
    duration := 0
    status := .scheduled
    apiSource := "NS" }

/-- Same train number and arrival instant, but departing 10:20 UTC (a
different 5-minute bucket) and reporting a different destination name. -/
def jElse : Journey :=
  { jZur with
    id := "y"
    departure := { station := stnElse, scheduledDeparture := some 1768645200000 }
    arrival := { station := stnElse, scheduledArrival := some 1768661880000 } }

/-- C1 counterexample candidates: both report destination "Basel SBB" (equal
names), unrelated to the searched destination, and their departure buckets
differ. -/
def jCexA : Journey :=
  { jZur with
    id := "a"
    arrival := { station := stnBasel, scheduledArrival := some 1768661880000 } }

def jCexB : Journey :=
  { jElse with
    id := "b"
    arrival := { station := stnBasel, scheduledArrival := some 1768661880000 } }

def stop0 : JourneyStop := { station := { code := "", name := "", country := "" } }

/-- A minimal journey used to build merge-engine fixtures. -/
def jBase : Journey :=
  { id := "base"
    trainNumber := "123"
    trainType := "IC"
    operator := "IntOp"
    departure := stop0
    arrival := stop0
    stops := []
    duration := 0
    status := .scheduled
    apiSource := "NS" }

def mBase : MergedJourneyData := freshMerged .DB jBase

/-- An already-escalated merged journey (status `delayed`). -/
def mDelayed : MergedJourneyData := { mBase with status := .delayed }

/-- C4 witness: the NS candidate carries a departure platform. -/
def jPlat : Journey :=
  { jBase with
    departure := { stop0 with platform := some "5", plannedPlatform := some "5" } }

/-- C4 counterexample: a German destination, so DB is the authoritative
provider for the arrival stop. -/
def tsBer : UnifiedStation :=
  { id := "berlin-hbf", displayName := "Berlin Hbf", country := "DE" }

/-- C4 counterexample: existing merged journey whose arrival stop (from the
first candidate) carries a scheduled arrival, a delay and a cancellation flag
but no platform. -/
def eArrNS : MergedJourneyData :=
  { mBase with arrival :=
      { station := { code := "8400058", name := "Berlin Hbf", country := "DE" }
        scheduledArrival := some 1768661880000
        arrivalDelay := some 3
        cancelled := some false } }

/-- C4 counterexample: DB candidate whose arrival stop has the shape of
dbApi's `buildFullRouteFromPpth` current-station literal — station, scheduled
departure and platform fields only; no scheduled-arrival, delay or cancelled
keys. -/
def jArrDB : Journey :=
  { jBase with arrival :=
      { station := { code := "8011160", name := "Berlin Hbf", country := "DE"
                     uicCode := some "8011160" }
        scheduledDeparture := some 1768644000000
        platform := some "5"
        plannedPlatform := some "5" } }

/-- C6 data: existing stop without any platform data. -/
def stopNoPlat : JourneyStop :=
  { station := { code := "", name := "Aboard", country := "DE" } }

/-- C6 data: candidate stop with a planned platform but no `platform` field. -/
def stopPlanOnly : JourneyStop :=
  { station := { code := "", name := "Aboard", country := "DE" }
    plannedPlatform := some "7" }

def mStops : MergedJourneyData := { mBase with stops := [stopNoPlat] }

def jStops : Journey := { jBase with stops := [stopPlanOnly] }

/-- An environment whose external SBB client and registry return nothing. -/
def envEmpty : OrchestratorEnv :=
  { sbbSearchJourneys := fun _ _ _ => .ok []
    findStationsByName := fun _ => [] }

/-- C3 provider: supports name queries, its id-based journey query finds
nothing, its display-name query would find `jZur`. -/
def provName : ProviderM :=
  { id := .DB
    country := "DE"
    supportsNameQuery := true
    toProviderStationId := fun s => some s.id
    searchJourneys := fun f _ _ =>
      if f == "Amsterdam Centraal" then .ok [jZur] else .ok [] }

/-- C8 providers: one succeeds, one throws. -/
def provGood : ProviderM :=
  { id := .NS
    country := "NL"
    toProviderStationId := fun s => some s.id
    searchJourneys := fun _ _ _ => .ok [jZur] }

def provBad : ProviderM :=
  { id := .DB
    country := "DE"
    toProviderStationId := fun s => some s.id
    searchJourneys := fun _ _ _ => .error () }

/-- C9 data: a merged journey with a scheduled departure, and its storage
input. -/
def mKey : MergedJourneyData :=
  { mBase with departure := { stop0 with scheduledDeparture := some 1768644000000 } }

def inputKey : StoredJourneyInput := toStoredJourneyInput mKey fsAms tsZur 0

/-- Invariant of the platform-merging walk: every current stop is either the
corresponding original stop, or that original stop with its three platform
fields copied from a candidate stop that has a truthy platform and a
case-insensitively equal station name, the original having had none. -/
def StopsInv (orig pool cur : List JourneyStop) : Prop :=
  cur.length = orig.length ∧
  ∀ i : Nat, cur.get? i = orig.get? i ∨
    ∃ s ns, orig.get? i = some s ∧ ns ∈ pool ∧ jsTruthy ns.platform = true ∧
      jsTruthy s.platform = false ∧
      jsToLower s.station.name = jsToLower ns.station.name ∧
      cur.get? i = some (platformCopy s ns)

/-- The `byKey` state holding only the first C1 counterexample candidate. -/
def stC1 : List (String × MergedJourneyData) :=
  [(generateMergeKey jCexA, freshMerged .NS jCexA)]

/-- C2 witness candidates: no scheduled arrivals, distinct primary keys. -/
def jNoArrA : Journey := { jBase with trainNumber := "111" }

def jNoArrB : Journey := { jBase with trainNumber := "222" }

-- =============================================================================
-- Helper lemmas
-- =============================================================================

section UpdateFirst

variable {α : Type _} {β : Type _} {p : α → Bool} {f : α → α}

theorem updateFirst_eq_none_iff {l : List α} :
    updateFirst p f l = none ↔ ∀ x ∈ l, p x = false := by
  induction l with
  | nil => simp [updateFirst]
  | cons x t ih =>
      by_cases h : p x
      · simp [updateFirst, h]
      · simp only [updateFirst, h]
        simp [Option.map_eq_none', ih, h]

theorem updateFirst_length {l l' : List α}
    (h : updateFirst p f l = some l') : l'.length = l.length := by
  induction l generalizing l' with
  | nil => simp [updateFirst] at h
  | cons x t ih =>
      by_cases hx : p x
      · simp only [updateFirst, hx, if_pos, Option.some.injEq] at h
        subst h; simp
      · simp [updateFirst, hx, Option.map_eq_some'] at h
        obtain ⟨t', ht', rfl⟩ := h
        simp [ih ht']

theorem updateFirst_map (g : α → β) {l l' : List α}
    (h : updateFirst p f l = some l')
    (hg : ∀ x, p x = true → g (f x) = g x) : l'.map g = l.map g := by
  induction l generalizing l' with
  | nil => simp [updateFirst] at h
  | cons x t ih =>
      by_cases hx : p x
      · simp only [updateFirst, hx, if_pos, Option.some.injEq] at h
        subst h; simp [hg x hx]
      · simp [updateFirst, hx, Option.map_eq_some'] at h
        obtain ⟨t', ht', rfl⟩ := h
        simp [ih ht']

theorem updateFirst_get? {l l' : List α}
    (h : updateFirst p f l = some l') (i : Nat) :
    l'.get? i = l.get? i ∨
      ∃ x, l.get? i = some x ∧ p x = true ∧ l'.get? i = some (f x) := by
  induction l generalizing l' i with
  | nil => simp [updateFirst] at h
  | cons x t ih =>
      by_cases hx : p x
      · simp only [updateFirst, hx, if_pos, Option.some.injEq] at h
        subst h
        cases i with
        | zero => exact Or.inr ⟨x, rfl, hx, rfl⟩
        | succ j => exact Or.inl rfl
      · simp [updateFirst, hx, Option.map_eq_some'] at h
        obtain ⟨t', ht', rfl⟩ := h
        cases i with
        | zero => exact Or.inl rfl
        | succ j =>
            rcases ih ht' j with h' | ⟨y, hy, hpy, hy'⟩
            · exact Or.inl h'
            · exact Or.inr ⟨y, hy, hpy, hy'⟩

theorem updateFirst_exists_updated {l l' : List α}
    (h : updateFirst p f l = some l') :
    ∃ x ∈ l, p x = true ∧ f x ∈ l' := by
  induction l generalizing l' with
  | nil => simp [updateFirst] at h
  | cons x t ih =>
      by_cases hx : p x
      · simp only [updateFirst, hx, if_pos, Option.some.injEq] at h
        subst h
        exact ⟨x, by simp, hx, by simp⟩
      · simp [updateFirst, hx, Option.map_eq_some'] at h
        obtain ⟨t', ht', rfl⟩ := h
        obtain ⟨y, hy, hpy, hy'⟩ := ih ht'
        exact ⟨y, by simp [hy], hpy, by simp [hy']⟩

theorem updateFirst_isSome_of_mem {l : List α} {x : α}
    (hx : x ∈ l) (hp : p x = true) : (updateFirst p f l).isSome := by
  rcases h : updateFirst p f l with _ | l'
  · rw [updateFirst_eq_none_iff] at h
    rw [h x hx] at hp
    cases hp
  · rfl

end UpdateFirst

section MergeProjections

variable (e : MergedJourneyData) (nj : Journey) (src : ProviderID)
variable (fs ts : UnifiedStation)

theorem mergeSourcesStep_proj :
    (mergeSourcesStep e src).status = e.status ∧
    (mergeSourcesStep e src).stops = e.stops ∧
    (mergeSourcesStep e src).departure = e.departure ∧
    (mergeSourcesStep e src).arrival = e.arrival ∧
    (mergeSourcesStep e src).trainNumber = e.trainNumber ∧
    (mergeSourcesStep e src).trainType = e.trainType ∧
    (mergeSourcesStep e src).operator = e.operator ∧
    (mergeSourcesStep e src).duration = e.duration :=
  ⟨rfl, rfl, rfl, rfl, rfl, rfl, rfl, rfl⟩

theorem mergeRawIdStep_proj :
    (mergeRawIdStep e nj src).status = e.status ∧
    (mergeRawIdStep e nj src).stops = e.stops ∧
    (mergeRawIdStep e nj src).departure = e.departure ∧
    (mergeRawIdStep e nj src).arrival = e.arrival ∧
    (mergeRawIdStep e nj src).trainNumber = e.trainNumber ∧
    (mergeRawIdStep e nj src).trainType = e.trainType ∧
    (mergeRawIdStep e nj src).operator = e.operator ∧
    (mergeRawIdStep e nj src).duration = e.duration := by
  cases src <;> exact ⟨rfl, rfl, rfl, rfl, rfl, rfl, rfl, rfl⟩

theorem mergeDepartureStep_proj :
    (mergeDepartureStep e nj src fs).status = e.status ∧
    (mergeDepartureStep e nj src fs).stops = e.stops ∧
    (mergeDepartureStep e nj src fs).arrival = e.arrival ∧
    (mergeDepartureStep e nj src fs).trainNumber = e.trainNumber ∧
    (mergeDepartureStep e nj src fs).trainType = e.trainType ∧
    (mergeDepartureStep e nj src fs).operator = e.operator ∧
    (mergeDepartureStep e nj src fs).duration = e.duration := by
  unfold mergeDepartureStep
  split <;> exact ⟨rfl, rfl, rfl, rfl, rfl, rfl, rfl⟩

theorem mergeDepartureStep_departure :
    (mergeDepartureStep e nj src fs).departure =
      if getProviderForCountry fs.country == some src &&
          jsTruthy nj.departure.platform && !jsTruthy e.departure.platform then
        spreadStop e.departure nj.departure
      else e.departure := by
  unfold mergeDepartureStep
  split <;> simp_all

theorem mergeArrivalStep_proj :
    (mergeArrivalStep e nj src ts).status = e.status ∧
    (mergeArrivalStep e nj src ts).stops = e.stops ∧
    (mergeArrivalStep e nj src ts).departure = e.departure ∧
    (mergeArrivalStep e nj src ts).trainNumber = e.trainNumber ∧
    (mergeArrivalStep e nj src ts).trainType = e.trainType ∧
    (mergeArrivalStep e nj src ts).operator = e.operator ∧
    (mergeArrivalStep e nj src ts).duration = e.duration := by
  unfold mergeArrivalStep
  split <;> exact ⟨rfl, rfl, rfl, rfl, rfl, rfl, rfl⟩

theorem mergeArrivalStep_arrival :
    (mergeArrivalStep e nj src ts).arrival =
      if getProviderForCountry ts.country == some src &&
          jsTruthy nj.arrival.platform && !jsTruthy e.arrival.platform then
        spreadStop e.arrival nj.arrival
      else e.arrival := by
  unfold mergeArrivalStep
  split <;> simp_all

theorem mergeStopsStep_proj :
    (mergeStopsStep e nj).status = e.status ∧
    (mergeStopsStep e nj).departure = e.departure ∧
    (mergeStopsStep e nj).arrival = e.arrival ∧
    (mergeStopsStep e nj).trainNumber = e.trainNumber ∧
    (mergeStopsStep e nj).trainType = e.trainType ∧
    (mergeStopsStep e nj).operator = e.operator ∧
    (mergeStopsStep e nj).duration = e.duration := by
  unfold mergeStopsStep
  split <;> exact ⟨rfl, rfl, rfl, rfl, rfl, rfl, rfl⟩

theorem mergeStopsStep_stops :
    (mergeStopsStep e nj).stops =
      if nj.stops.length > e.stops.length then nj.stops
      else mergeStopPlatforms e.stops nj.stops := by
  unfold mergeStopsStep
  split <;> simp_all

theorem mergeStatusStep_proj :
    (mergeStatusStep e nj).stops = e.stops ∧
    (mergeStatusStep e nj).departure = e.departure ∧
    (mergeStatusStep e nj).arrival = e.arrival ∧
    (mergeStatusStep e nj).trainNumber = e.trainNumber ∧
    (mergeStatusStep e nj).trainType = e.trainType ∧
    (mergeStatusStep e nj).operator = e.operator ∧
    (mergeStatusStep e nj).duration = e.duration := by
  unfold mergeStatusStep
  split <;> exact ⟨rfl, rfl, rfl, rfl, rfl, rfl, rfl⟩

theorem mergeStatusStep_status :
    (mergeStatusStep e nj).status =
      if nj.status != .scheduled && e.status == .scheduled then nj.status
      else e.status := by
  unfold mergeStatusStep
  split <;> simp_all

theorem mergeIntoExisting_status_eq :
    (mergeIntoExisting e nj src fs ts).status =
      if nj.status != .scheduled && e.status == .scheduled then nj.status
      else e.status := by
  unfold mergeIntoExisting
  rw [mergeStatusStep_status, (mergeStopsStep_proj _ _).1,
    (mergeArrivalStep_proj _ _ _ _).1, (mergeDepartureStep_proj _ _ _ _).1,
    (mergeRawIdStep_proj _ _ _).1, (mergeSourcesStep_proj _ _).1]

theorem mergeIntoExisting_stops_eq :
    (mergeIntoExisting e nj src fs ts).stops =
      if nj.stops.length > e.stops.length then nj.stops
      else mergeStopPlatforms e.stops nj.stops := by
  unfold mergeIntoExisting
  rw [(mergeStatusStep_proj _ _).1, mergeStopsStep_stops,
    (mergeArrivalStep_proj _ _ _ _).2.1, (mergeDepartureStep_proj _ _ _ _).2.1,
    (mergeRawIdStep_proj _ _ _).2.1, (mergeSourcesStep_proj _ _).2.1]

theorem mergeIntoExisting_departure_eq :
    (mergeIntoExisting e nj src fs ts).departure =
      if getProviderForCountry fs.country == some src &&
          jsTruthy nj.departure.platform && !jsTruthy e.departure.platform then
        spreadStop e.departure nj.departure
      else e.departure := by
  unfold mergeIntoExisting
  rw [(mergeStatusStep_proj _ _).2.1, (mergeStopsStep_proj _ _).2.1,
    (mergeArrivalStep_proj _ _ _ _).2.2.1, mergeDepartureStep_departure,
    (mergeRawIdStep_proj _ _ _).2.2.1, (mergeSourcesStep_proj _ _).2.2.1]

theorem mergeIntoExisting_arrival_eq :
    (mergeIntoExisting e nj src fs ts).arrival =
      if getProviderForCountry ts.country == some src &&
          jsTruthy nj.arrival.platform && !jsTruthy e.arrival.platform then
        spreadStop e.arrival nj.arrival
      else e.arrival := by
  unfold mergeIntoExisting
  rw [(mergeStatusStep_proj _ _).2.2.1, (mergeStopsStep_proj _ _).2.2.1,
    mergeArrivalStep_arrival, (mergeDepartureStep_proj _ _ _ _).2.2.1,
    (mergeRawIdStep_proj _ _ _).2.2.2.1, (mergeSourcesStep_proj _ _).2.2.2.1]

theorem mergeIntoExisting_identity_eq :
    (mergeIntoExisting e nj src fs ts).trainNumber = e.trainNumber ∧
    (mergeIntoExisting e nj src fs ts).trainType = e.trainType ∧
    (mergeIntoExisting e nj src fs ts).operator = e.operator ∧
    (mergeIntoExisting e nj src fs ts).duration = e.duration := by
  unfold mergeIntoExisting
  refine ⟨?_, ?_, ?_, ?_⟩
  · rw [(mergeStatusStep_proj _ _).2.2.2.1, (mergeStopsStep_proj _ _).2.2.2.1,
      (mergeArrivalStep_proj _ _ _ _).2.2.2.1,
      (mergeDepartureStep_proj _ _ _ _).2.2.2.1,
      (mergeRawIdStep_proj _ _ _).2.2.2.2.1,
      (mergeSourcesStep_proj _ _).2.2.2.2.1]
  · rw [(mergeStatusStep_proj _ _).2.2.2.2.1, (mergeStopsStep_proj _ _).2.2.2.2.1,
      (mergeArrivalStep_proj _ _ _ _).2.2.2.2.1,
      (mergeDepartureStep_proj _ _ _ _).2.2.2.2.1,
      (mergeRawIdStep_proj _ _ _).2.2.2.2.2.1,
      (mergeSourcesStep_proj _ _).2.2.2.2.2.1]
  · rw [(mergeStatusStep_proj _ _).2.2.2.2.2.1,
      (mergeStopsStep_proj _ _).2.2.2.2.2.1,
      (mergeArrivalStep_proj _ _ _ _).2.2.2.2.2.1,
      (mergeDepartureStep_proj _ _ _ _).2.2.2.2.2.1,
      (mergeRawIdStep_proj _ _ _).2.2.2.2.2.2.1,
      (mergeSourcesStep_proj _ _).2.2.2.2.2.2.1]
  · rw [(mergeStatusStep_proj _ _).2.2.2.2.2.2,
      (mergeStopsStep_proj _ _).2.2.2.2.2.2,
      (mergeArrivalStep_proj _ _ _ _).2.2.2.2.2.2,
      (mergeDepartureStep_proj _ _ _ _).2.2.2.2.2.2,
      (mergeRawIdStep_proj _ _ _).2.2.2.2.2.2.2,
      (mergeSourcesStep_proj _ _).2.2.2.2.2.2.2]

end MergeProjections

-- =============================================================================
-- Claim theorems
-- =============================================================================

/-- C10: merging additional candidates into an existing merged journey never
changes its train identity and summary fields — `trainNumber`, `trainType`,
`operator` and `duration` remain those of the first candidate encountered for
the match set (they are taken from the first candidate at creation and
preserved by every subsequent merge); only the sources, raw ids, departure and
arrival stops, stop list, and status can change. -/
theorem merge_preserves_train_identity :
    (∀ (e : MergedJourneyData) (nj : Journey) (src : ProviderID)
        (fs ts : UnifiedStation),
      (mergeIntoExisting e nj src fs ts).trainNumber = e.trainNumber ∧
      (mergeIntoExisting e nj src fs ts).trainType = e.trainType ∧
      (mergeIntoExisting e nj src fs ts).operator = e.operator ∧
      (mergeIntoExisting e nj src fs ts).duration = e.duration) ∧
    ∀ (src : ProviderID) (j : Journey),
      (freshMerged src j).trainNumber = j.trainNumber ∧
      (freshMerged src j).trainType = j.trainType ∧
      (freshMerged src j).operator = j.operator ∧
      (freshMerged src j).duration = j.duration :=
  ⟨fun e nj src fs ts => mergeIntoExisting_identity_eq e nj src fs ts,
   fun _ _ => ⟨rfl, rfl, rfl, rfl⟩⟩

/-- C5: within a single merge pass, a candidate's non-`scheduled` status is
adopted only while the merged status is still `scheduled`; once escalated away
from `scheduled`, no further candidate — `scheduled` or not — changes the
status, so it never reverts to `scheduled`. -/
theorem merge_status_escalation_monotonic :
    ∀ (e : MergedJourneyData) (nj : Journey) (src : ProviderID)
      (fs ts : UnifiedStation),
      ((mergeIntoExisting e nj src fs ts).status = .scheduled →
        e.status = .scheduled) ∧
      (e.status ≠ .scheduled →
        (mergeIntoExisting e nj src fs ts).status = e.status) ∧
      (e.status = .scheduled → nj.status ≠ .scheduled →
        (mergeIntoExisting e nj src fs ts).status = nj.status) := by
  intro e nj src fs ts
  have h := mergeIntoExisting_status_eq e nj src fs ts
  by_cases hc : (nj.status != JourneyStatus.scheduled &&
      e.status == JourneyStatus.scheduled) = true
  · rw [h, if_pos hc]
    simp only [Bool.and_eq_true, bne_iff_ne, beq_iff_eq, ne_eq] at hc
    exact ⟨fun _ => hc.2, fun hne => absurd hc.2 hne, fun _ _ => rfl⟩
  · rw [h, if_neg hc]
    simp only [Bool.and_eq_true, bne_iff_ne, beq_iff_eq, ne_eq, not_and] at hc
    exact ⟨fun hs => hs, fun _ => rfl, fun he hn => absurd he (hc hn)⟩

/-- C5 witness: an already-`delayed` merged journey keeps its status when a
`scheduled` candidate is applied. -/
theorem merge_status_escalation_monotonic_witness :
    (mergeIntoExisting mDelayed jBase .DB fsAms tsZur).status = .delayed := by
  have h := (merge_status_escalation_monotonic mDelayed jBase .DB fsAms tsZur).2.1
    (by decide)
  rw [h]
  rfl

/-- An optional string that is truthy is `some`, so it wins the overlay. -/
theorem orElse_of_jsTruthy {o : Option String} (f : Unit → Option String)
    (h : jsTruthy o = true) : o.orElse f = o := by
  cases o with
  | none => simp [jsTruthy] at h
  | some s => rfl

/-- C4 counterexample: with a German destination DB is arrival-authoritative;
its candidate's arrival stop — shaped like dbApi's ppth current-station
literal, which binds no scheduled-arrival/delay/cancelled keys — fires the
adoption (truthy platform over a platform-less existing stop), yet the merged
arrival stop keeps the existing stop's scheduled arrival, delay and cancelled
flag while adopting the platform: the adoption is not full stop
substitution. -/
theorem merge_arrival_adoption_keeps_missing_fields :
    getProviderForCountry tsBer.country = some .DB ∧
    jsTruthy jArrDB.arrival.platform = true ∧
    jsTruthy eArrNS.arrival.platform = false ∧
    jArrDB.arrival.scheduledArrival = none ∧
    jArrDB.arrival.arrivalDelay = none ∧
    jArrDB.arrival.cancelled = none ∧
    (mergeIntoExisting eArrNS jArrDB .DB fsAms tsBer).arrival.scheduledArrival =
      some 1768661880000 ∧
    (mergeIntoExisting eArrNS jArrDB .DB fsAms tsBer).arrival.arrivalDelay =
      some 3 ∧
    (mergeIntoExisting eArrNS jArrDB .DB fsAms tsBer).arrival.cancelled =
      some false ∧
    (mergeIntoExisting eArrNS jArrDB .DB fsAms tsBer).arrival.platform =
      some "5" := by
  decide

/-- C4 (amended): when a candidate comes from the provider authoritative for
the origin station's country, its departure stop carries (truthy) platform
data and the existing merged departure stop lacks it, the merge adopts the
candidate's departure stop as an object spread over the existing one: the
station and the platform — and every field the candidate's stop supplies —
become the candidate's, while fields its stop object does not supply survive
from the existing stop. The merged departure stop's platform therefore equals
the authoritative provider's value, but the adoption is an overlay, not full
stop substitution (DB-built arrival stops omit the
scheduled-arrival/delay/cancelled keys). Symmetrically for the arrival stop
and the destination station's country. -/
theorem merge_authoritative_stop_overlay :
    ∀ (e : MergedJourneyData) (nj : Journey) (src : ProviderID)
      (fs ts : UnifiedStation),
      (getProviderForCountry fs.country = some src →
        jsTruthy nj.departure.platform = true →
        jsTruthy e.departure.platform = false →
        (mergeIntoExisting e nj src fs ts).departure.station =
            nj.departure.station ∧
        (mergeIntoExisting e nj src fs ts).departure.platform =
            nj.departure.platform ∧
        (mergeIntoExisting e nj src fs ts).departure.scheduledArrival =
            nj.departure.scheduledArrival.orElse
              (fun _ => e.departure.scheduledArrival) ∧
        (mergeIntoExisting e nj src fs ts).departure.scheduledDeparture =
            nj.departure.scheduledDeparture.orElse
              (fun _ => e.departure.scheduledDeparture) ∧
        (mergeIntoExisting e nj src fs ts).departure.plannedPlatform =
            nj.departure.plannedPlatform.orElse
              (fun _ => e.departure.plannedPlatform) ∧
        (mergeIntoExisting e nj src fs ts).departure.actualPlatform =
            nj.departure.actualPlatform.orElse
              (fun _ => e.departure.actualPlatform) ∧
        (mergeIntoExisting e nj src fs ts).departure.departureDelay =
            nj.departure.departureDelay.orElse
              (fun _ => e.departure.departureDelay) ∧
        (mergeIntoExisting e nj src fs ts).departure.arrivalDelay =
            nj.departure.arrivalDelay.orElse
              (fun _ => e.departure.arrivalDelay) ∧
        (mergeIntoExisting e nj src fs ts).departure.cancelled =
            nj.departure.cancelled.orElse (fun _ => e.departure.cancelled)) ∧
      (getProviderForCountry ts.country = some src →
        jsTruthy nj.arrival.platform = true →
        jsTruthy e.arrival.platform = false →
        (mergeIntoExisting e nj src fs ts).arrival.station =
            nj.arrival.station ∧
        (mergeIntoExisting e nj src fs ts).arrival.platform =
            nj.arrival.platform ∧
        (mergeIntoExisting e nj src fs ts).arrival.scheduledArrival =
            nj.arrival.scheduledArrival.orElse
              (fun _ => e.arrival.scheduledArrival) ∧
        (mergeIntoExisting e nj src fs ts).arrival.scheduledDeparture =
            nj.arrival.scheduledDeparture.orElse
              (fun _ => e.arrival.scheduledDeparture) ∧
        (mergeIntoExisting e nj src fs ts).arrival.plannedPlatform =
            nj.arrival.plannedPlatform.orElse
              (fun _ => e.arrival.plannedPlatform) ∧
        (mergeIntoExisting e nj src fs ts).arrival.actualPlatform =
            nj.arrival.actualPlatform.orElse
              (fun _ => e.arrival.actualPlatform) ∧
        (mergeIntoExisting e nj src fs ts).arrival.departureDelay =
            nj.arrival.departureDelay.orElse
              (fun _ => e.arrival.departureDelay) ∧
        (mergeIntoExisting e nj src fs ts).arrival.arrivalDelay =
            nj.arrival.arrivalDelay.orElse
              (fun _ => e.arrival.arrivalDelay) ∧
        (mergeIntoExisting e nj src fs ts).arrival.cancelled =
            nj.arrival.cancelled.orElse (fun _ => e.arrival.cancelled)) := by
  intro e nj src fs ts
  constructor
  · intro h1 h2 h3
    have hd := mergeIntoExisting_departure_eq e nj src fs ts
    rw [if_pos (by simp [h1, h2, h3])] at hd
    rw [hd]
    exact ⟨rfl, orElse_of_jsTruthy _ h2, rfl, rfl, rfl, rfl, rfl, rfl, rfl⟩
  · intro h1 h2 h3
    have ha := mergeIntoExisting_arrival_eq e nj src fs ts
    rw [if_pos (by simp [h1, h2, h3])] at ha
    rw [ha]
    exact ⟨rfl, orElse_of_jsTruthy _ h2, rfl, rfl, rfl, rfl, rfl, rfl, rfl⟩

/-- C4 witness: NS is authoritative for the Dutch origin, its candidate has
departure platform "5", the existing merged departure has none — the merged
departure platform becomes "5". -/
theorem merge_authoritative_stop_overlay_witness :
    (mergeIntoExisting mBase jPlat .NS fsAms tsZur).departure.platform =
      some "5" := by
  have h := (merge_authoritative_stop_overlay mBase jPlat .NS fsAms tsZur).1
    (by decide) (by decide) (by decide)
  rw [h.2.1]
  rfl

/-- C7 counterexample: for a prognosis five minutes before the scheduled time
(a non-positive difference), the SBB adapter's `toDelayMinutes` surfaces the
negative delay `-5` instead of treating it as "no delay" (omitting it), as the
claim states every adapter does. -/
theorem toDelayMinutes_negative_surfaced :
    ((0 : Int) - (300000 : Int) ≤ 0) ∧
    toDelayMinutes (some 300000) (some 0) = some (-5) :=
  ⟨by decide, by decide⟩

/-- C7 (amended): the DB adapter's `calculateDelayMinutes` computes
`round((actual − scheduled) / 60000)` and omits non-positive differences; the
SBB adapter's `toDelayMinutes` computes the same rounded quotient but without
clamping (non-positive delays are surfaced); the NS adapter's `toMinutes`
converts an API-provided delay in seconds via `round(seconds / 60)`, also
without clamping. The rounded quotient is `⌊x + 1/2⌋`, i.e. the nearest
integer with ties towards `+∞`. -/
theorem adapter_delay_minute_semantics :
    (∀ s a : Nat, a ≤ s → calculateDelayMinutes (some s) (some a) = none) ∧
    (∀ s a : Nat, s < a →
      calculateDelayMinutes (some s) (some a) =
        some (jsRoundDiv ((a : Int) - (s : Int)) 60000)) ∧
    (∀ s p : Nat, toDelayMinutes (some s) (some p) =
      some (jsRoundDiv ((p : Int) - (s : Int)) 60000)) ∧
    (∀ sec : Int, toMinutes (some sec) = some (jsRoundDiv sec 60)) ∧
    (∀ num : Int, 60000 * jsRoundDiv num 60000 - 30000 ≤ num ∧
      num < 60000 * jsRoundDiv num 60000 + 30000) := by
  refine ⟨?_, ?_, fun _ _ => rfl, fun _ => rfl, ?_⟩
  · intro s a h
    simp only [calculateDelayMinutes]
    rw [if_pos (by omega)]
  · intro s a h
    simp only [calculateDelayMinutes]
    rw [if_neg (by omega)]
  · intro num
    unfold jsRoundDiv
    omega

/-- C7 witness: a five-minute positive delay is reported as 5 by both helper
families, and a zero difference is omitted by the DB helper. -/
theorem adapter_delay_minute_semantics_witness :
    calculateDelayMinutes (some 300000) (some 300000) = none ∧
    calculateDelayMinutes (some 0) (some 300000) = some 5 ∧
    toDelayMinutes (some 0) (some 300000) = some 5 := by
  refine ⟨adapter_delay_minute_semantics.1 300000 300000 (le_refl _), ?_, ?_⟩
  · rw [adapter_delay_minute_semantics.2.1 0 300000 (by decide)]
    decide
  · rw [adapter_delay_minute_semantics.2.2.1 0 300000]
    decide

/-- C9: the durable journey key equals
`{trainType}{trainNumber}_{originStationId}_{departure}` with the searched
origin station's id and the scheduled departure rendered in ISO-8601 truncated
to whole seconds; `storeJourney` upserts by this key — when a row with the key
exists it is updated in place (same row count, same ids, content replaced),
otherwise a single new row is inserted. -/
theorem journey_key_shape_and_upsert :
    (∀ (merged : MergedJourneyData) (fs ts : UnifiedStation) (now dep : Nat),
      merged.departure.scheduledDeparture = some dep →
      (toStoredJourneyInput merged fs ts now).journeyKey =
        merged.trainType ++ merged.trainNumber ++ "_" ++ fs.id ++ "_" ++
          isoSeconds dep) ∧
    (∀ (db : List StoredRow) (nextId : Nat) (input : StoredJourneyInput),
      (∃ r ∈ db, r.input.journeyKey = input.journeyKey) →
      (storeJourney db nextId input).1.length = db.length ∧
      (storeJourney db nextId input).1.map StoredRow.id = db.map StoredRow.id ∧
      ∃ r ∈ (storeJourney db nextId input).1, r.input = input) ∧
    (∀ (db : List StoredRow) (nextId : Nat) (input : StoredJourneyInput),
      (∀ r ∈ db, r.input.journeyKey ≠ input.journeyKey) →
      (storeJourney db nextId input).1 =
        db ++ [{ id := nextId, input := input }]) := by
  refine ⟨?_, ?_, ?_⟩
  · intro merged fs ts now dep h
    simp [toStoredJourneyInput, generateJourneyKey, h]
  · intro db nextId input ⟨r, hr, hkey⟩
    have hsome : (updateFirst
        (fun r => r.input.journeyKey == input.journeyKey)
        (fun r => { r with input := input }) db).isSome :=
      updateFirst_isSome_of_mem hr (by simp [hkey])
    rcases hdb : updateFirst (fun r => r.input.journeyKey == input.journeyKey)
        (fun r => { r with input := input }) db with _ | db'
    · rw [hdb] at hsome; cases hsome
    · have hstore : storeJourney db nextId input = (db', nextId) := by
        unfold storeJourney
        rw [hdb]
      rw [hstore]
      refine ⟨updateFirst_length hdb, updateFirst_map StoredRow.id hdb
        (fun _ _ => rfl), ?_⟩
      obtain ⟨x, hx, hpx, hfx⟩ := updateFirst_exists_updated hdb
      exact ⟨{ x with input := input }, hfx, rfl⟩
  · intro db nextId input h
    have hnone : updateFirst (fun r => r.input.journeyKey == input.journeyKey)
        (fun r => { r with input := input }) db = none := by
      rw [updateFirst_eq_none_iff]
      intro x hx
      simpa using h x hx
    unfold storeJourney
    rw [hnone]

/-- C9 witness: the concrete journey key for train IC123 out of Amsterdam
Centraal at 10:00 UTC, and the two upsert paths on a concrete store. -/
theorem journey_key_shape_and_upsert_witness :
    (toStoredJourneyInput mKey fsAms tsZur 0).journeyKey =
      mKey.trainType ++ mKey.trainNumber ++ "_" ++ fsAms.id ++ "_" ++
        isoSeconds 1768644000000 ∧
    (storeJourney [{ id := 0, input := inputKey }] 1 inputKey).1.length = 1 ∧
    (storeJourney [] 0 inputKey).1 = [{ id := 0, input := inputKey }] := by
  refine ⟨journey_key_shape_and_upsert.1 mKey fsAms tsZur 0 1768644000000 rfl,
    ?_, ?_⟩
  · exact (journey_key_shape_and_upsert.2.1 [{ id := 0, input := inputKey }] 1
      inputKey ⟨{ id := 0, input := inputKey }, by simp, rfl⟩).1
  · exact journey_key_shape_and_upsert.2.2 [] 0 inputKey (by simp)

/-- Folding "append each provider's contribution" from any accumulator. -/
theorem foldl_append_contributions {α β : Type _} (f : α → List β) :
    ∀ (ps : List α) (acc : List β),
      ps.foldl (fun a p => a ++ f p) acc = acc ++ (ps.map f).flatten := by
  intro ps
  induction ps with
  | nil => intro acc; simp
  | cons p t ih =>
      intro acc
      simp only [List.foldl_cons, List.map_cons, List.flatten_cons, ih,
        List.append_assoc]

/-- C8: the provider loop of `searchJourneys` is per-provider isolated — the
collected candidates are the concatenation of independent per-provider
contributions; a provider whose call throws contributes zero candidates, and
removing it leaves every other provider's contribution unchanged. No
provider-level exception escapes: the collection is a total function of the
providers' results. -/
theorem provider_failure_isolation :
    (∀ (env : OrchestratorEnv) (fs ts : UnifiedStation) (dt : Nat)
        (ps : List ProviderM),
      collectAllJourneys env ps fs ts dt =
        (ps.map (providerContribution env fs ts dt)).flatten) ∧
    (∀ (env : OrchestratorEnv) (fs ts : UnifiedStation) (dt : Nat)
        (p : ProviderM) (er : Unit),
      p.searchJourneys ((p.toProviderStationId fs).getD "")
          ((p.toProviderStationId ts).getD "") dt = .error er →
      providerContribution env fs ts dt p = []) ∧
    (∀ (env : OrchestratorEnv) (fs ts : UnifiedStation) (dt : Nat)
        (ps₁ ps₂ : List ProviderM) (p : ProviderM) (er : Unit),
      p.searchJourneys ((p.toProviderStationId fs).getD "")
          ((p.toProviderStationId ts).getD "") dt = .error er →
      collectAllJourneys env (ps₁ ++ p :: ps₂) fs ts dt =
        collectAllJourneys env ps₁ fs ts dt ++
          collectAllJourneys env ps₂ fs ts dt) := by
  have hjoin : ∀ (env : OrchestratorEnv) (fs ts : UnifiedStation) (dt : Nat)
      (ps : List ProviderM),
      collectAllJourneys env ps fs ts dt =
        (ps.map (providerContribution env fs ts dt)).flatten := by
    intro env fs ts dt ps
    unfold collectAllJourneys
    rw [foldl_append_contributions]
    simp
  have hdrop : ∀ (env : OrchestratorEnv) (fs ts : UnifiedStation) (dt : Nat)
      (p : ProviderM) (er : Unit),
      p.searchJourneys ((p.toProviderStationId fs).getD "")
          ((p.toProviderStationId ts).getD "") dt = .error er →
      providerContribution env fs ts dt p = [] := by
    intro env fs ts dt p er h
    simp only [providerContribution, h]
    split <;> rfl
  refine ⟨hjoin, hdrop, ?_⟩
  intro env fs ts dt ps₁ ps₂ p er h
  rw [hjoin, hjoin, hjoin, List.map_append, List.map_cons, hdrop env fs ts dt p er h]
  simp

/-- C8 witness: with a succeeding NS provider and a throwing DB provider, the
throwing provider contributes nothing and the collection splits. -/
theorem provider_failure_isolation_witness :
    providerContribution envEmpty fsAms tsZur 0 provBad = [] ∧
    collectAllJourneys envEmpty [provGood, provBad] fsAms tsZur 0 =
      collectAllJourneys envEmpty [provGood] fsAms tsZur 0 ++
        collectAllJourneys envEmpty [] fsAms tsZur 0 := by
  constructor
  · exact provider_failure_isolation.2.1 envEmpty fsAms tsZur 0 provBad () rfl
  · exact provider_failure_isolation.2.2 envEmpty fsAms tsZur 0 [provGood] []
      provBad () rfl

/-- C3 (code evaluation): a provider that supports display-name queries, whose
id-based journey query returns zero journeys, whose home country differs from
the origin's, and whose display-name query would return a journey, still
contributes zero candidates for this search — `searchJourneys` awaits the
fallback query but discards its result (part_003 lines 403–417). -/
theorem name_fallback_result_discarded :
    provName.supportsNameQuery = true ∧
    provName.searchJourneys ((provName.toProviderStationId fsAms).getD "")
        ((provName.toProviderStationId tsZur).getD "") 0 = .ok [] ∧
    provName.searchJourneys fsAms.displayName tsZur.displayName 0 =
      .ok [jZur] ∧
    provName.country ≠ fsAms.country ∧
    collectAllJourneys envEmpty [provName] fsAms tsZur 0 = [] := by
  exact ⟨rfl, rfl, rfl, by decide, by decide⟩

theorem stopsInv_init (orig pool : List JourneyStop) : StopsInv orig pool orig :=
  ⟨rfl, fun _ => Or.inl rfl⟩

theorem stopsInv_step {orig pool cur : List JourneyStop} {ns : JourneyStop}
    (hns : ns ∈ pool) (h : StopsInv orig pool cur) :
    StopsInv orig pool (applyStopPlatform cur ns) := by
  unfold applyStopPlatform
  split
  next cur' hup =>
    refine ⟨by rw [updateFirst_length hup]; exact h.1, ?_⟩
    intro i
    rcases updateFirst_get? hup i with heq | ⟨x, hx, hpx, hfx⟩
    · rw [heq]; exact h.2 i
    · by_cases hcond : (!jsTruthy x.platform && jsTruthy ns.platform) = true
      · rw [if_pos hcond] at hfx
        simp only [Bool.and_eq_true, Bool.not_eq_true'] at hcond
        rcases h.2 i with heq2 | ⟨s, ns0, _, _, hplat0, _, _, hcopy⟩
        · refine Or.inr ⟨x, ns, ?_, hns, hcond.2, hcond.1, ?_, hfx⟩
          · rw [← heq2]; exact hx
          · have := hpx
            simp only [beq_iff_eq] at this
            exact this
        · rw [hx] at hcopy
          have hxeq : x = platformCopy s ns0 := by
            injection hcopy
          rw [hxeq] at hcond
          simp only [platformCopy] at hcond
          rw [hcond.1] at hplat0
          cases hplat0
      · rw [if_neg hcond] at hfx
        rw [hfx, ← hx]
        exact h.2 i
  next hup => exact h

theorem stopsInv_fold (orig pool : List JourneyStop) :
    ∀ (l cur : List JourneyStop), (∀ ns ∈ l, ns ∈ pool) →
      StopsInv orig pool cur →
      StopsInv orig pool (l.foldl applyStopPlatform cur) := by
  intro l
  induction l with
  | nil => intro cur _ h; exact h
  | cons ns t ih =>
      intro cur hl h
      exact ih _ (fun x hx => hl x (by simp [hx]))
        (stopsInv_step (hl ns (by simp)) h)

theorem mergeStopPlatforms_inv (stops newStops : List JourneyStop) :
    StopsInv stops newStops (mergeStopPlatforms stops newStops) :=
  stopsInv_fold stops newStops newStops stops (fun _ hx => hx)
    (stopsInv_init stops newStops)

/-- C6 counterexample: the existing stop "Aboard" has no platform data at all;
the candidate's stop of the same name has `plannedPlatform = "7"` but no
(truthy) `platform`, so the code copies nothing — the claim, as stated, says
the existing stop receives the candidate's planned/actual platform fields. -/
theorem merge_stop_platform_copy_needs_platform :
    (mergeIntoExisting mStops jStops .DB fsAms tsZur).stops = [stopNoPlat] ∧
    stopNoPlat.plannedPlatform = none ∧
    stopPlanOnly.plannedPlatform = some "7" ∧
    jsToLower stopNoPlat.station.name = jsToLower stopPlanOnly.station.name ∧
    jsTruthy stopNoPlat.platform = false ∧
    jsTruthy stopNoPlat.plannedPlatform = false ∧
    jsTruthy stopNoPlat.actualPlatform = false ∧
    jStops.stops = [stopPlanOnly] ∧
    mStops.stops = [stopNoPlat] := by
  refine ⟨?_, rfl, rfl, by decide, rfl, rfl, rfl, rfl, rfl⟩
  decide

/-- C6 (amended): when the candidate's stop list is strictly longer, it
replaces the existing list wholesale; otherwise the existing list keeps its
length and each existing stop is either unchanged or — when it had no (truthy)
platform and some candidate stop with a case-insensitively equal name carries
a truthy platform — receives that candidate stop's `platform`,
`plannedPlatform` and `actualPlatform`. -/
theorem merge_stop_list_completeness :
    ∀ (e : MergedJourneyData) (nj : Journey) (src : ProviderID)
      (fs ts : UnifiedStation),
      (nj.stops.length > e.stops.length →
        (mergeIntoExisting e nj src fs ts).stops = nj.stops) ∧
      (nj.stops.length ≤ e.stops.length →
        (mergeIntoExisting e nj src fs ts).stops.length = e.stops.length ∧
        ∀ i : Nat,
          (mergeIntoExisting e nj src fs ts).stops.get? i = e.stops.get? i ∨
          ∃ s ns, e.stops.get? i = some s ∧ ns ∈ nj.stops ∧
            jsTruthy ns.platform = true ∧ jsTruthy s.platform = false ∧
            jsToLower s.station.name = jsToLower ns.station.name ∧
            (mergeIntoExisting e nj src fs ts).stops.get? i =
              some (platformCopy s ns)) := by
  intro e nj src fs ts
  have hs := mergeIntoExisting_stops_eq e nj src fs ts
  constructor
  · intro hgt
    rw [hs, if_pos hgt]
  · intro hle
    rw [hs, if_neg (by omega)]
    exact mergeStopPlatforms_inv e.stops nj.stops

/-- C6 witness: merging a same-length candidate stop list keeps the existing
list's length. -/
theorem merge_stop_list_completeness_witness :
    (mergeIntoExisting mStops jStops .DB fsAms tsZur).stops.length = 1 := by
  have h := ((merge_stop_list_completeness mStops jStops .DB fsAms tsZur).2
    (by decide)).1
  rw [h]
  rfl

/-- The inline secondary predicate of `mergeJourneys` coincides with the
amended specification-side criterion whenever its gate holds (the candidate
has a scheduled arrival and a nonempty train number). -/
theorem secondaryMatches_eq_amended (ts : UnifiedStation) (j : Journey)
    (am : Nat) (harr : j.arrival.scheduledArrival = some am)
    (hemp : j.trainNumber.data.isEmpty = false) (e : MergedJourneyData) :
    secondaryMatches ts j am e = amendedSecondaryApplies ts e j := by
  unfold secondaryMatches amendedSecondaryApplies amendedSecondaryMatch
  rw [harr, hemp]
  by_cases htn : e.trainNumber = j.trainNumber
  · cases hca : e.arrival.scheduledArrival with
    | none => simp [htn, hca]
    | some ca =>
        have habs : ((am : Int) - (ca : Int)).natAbs =
            ((ca : Int) - (am : Int)).natAbs := by
          rw [← Int.natAbs_neg, neg_sub]
        by_cases hd : ((ca : Int) - (am : Int)).natAbs ≤ 20 * 60000
        · simp only [bne_iff_ne, ne_eq, htn, not_true_eq_false, if_false,
            Bool.not_false, Bool.true_and, beq_iff_eq, habs, hd,
            decide_true_eq_true]
          rw [if_neg (by omega)]
          simp [htn]
        · simp only [bne_iff_ne, ne_eq, htn, not_true_eq_false, if_false,
            Bool.not_false, Bool.true_and, beq_iff_eq, habs]
          rw [if_pos (by omega)]
          simp [hd]
  · have h1 : (e.trainNumber != j.trainNumber) = true := by
      simp [bne_iff_ne, htn]
    have h2 : (j.trainNumber == e.trainNumber) = false := by
      simp [beq_iff_eq]
      exact fun h => htn h.symm
    simp [h1, h2]

/-- C1 counterexample: the candidate `jCexB` satisfies the claim's secondary
criterion against the singleton set of `jCexA` (same train number, identical
arrivals, equal destination names "Basel SBB"), their primary keys differ, yet
the matcher does not merge them — it produces two match sets, because the code
compares the existing set's destination name against the *searched*
destination station, not against the candidate's destination name. -/
theorem claimed_secondary_match_not_merged :
    claimedSecondaryMatch tsZur (freshMerged .NS jCexA) jCexB = true ∧
    generateMergeKey jCexA ≠ generateMergeKey jCexB ∧
    (mergeJourneys [⟨.NS, jCexA⟩] fsAms tsZur).length = 1 ∧
    (mergeJourneys [⟨.NS, jCexA⟩, ⟨.DB, jCexB⟩] fsAms tsZur).length = 2 := by
  refine ⟨by decide, by decide, by decide, by decide⟩

/-- C1 (amended): when a candidate's primary merge key is absent from the
`byKey` map, the matcher merges it into the *first* existing set (in insertion
order) satisfying the amended secondary criterion — nonempty train number,
equal train numbers, both scheduled arrivals present and ≤ 20 minutes apart,
and the existing set's destination name equal to or containing the searched
destination's display name (or the set's arrival station code equal to the
searched destination's id) — and otherwise starts a singleton match set under
the candidate's key. -/
theorem mergeStep_secondary_characterization
    (fs ts : UnifiedStation) (st : List (String × MergedJourneyData))
    (c : SourcedJourney)
    (hmiss : ∀ e ∈ st, (e.1 == generateMergeKey c.journey) = false) :
    mergeStep fs ts st c =
      match updateFirst (fun e => amendedSecondaryApplies ts e.2 c.journey)
          (fun e => (e.1, mergeIntoExisting e.2 c.journey c.source fs ts)) st with
      | some st' => st'
      | none =>
          st ++ [(generateMergeKey c.journey, freshMerged c.source c.journey)] := by
  simp only [mergeStep]
  rw [updateFirst_eq_none_iff.mpr hmiss]
  cases harr : c.journey.arrival.scheduledArrival with
  | none =>
      rw [updateFirst_eq_none_iff.mpr (fun e _ => by
        simp [amendedSecondaryApplies, amendedSecondaryMatch, harr])]
  | some am =>
      cases hemp : c.journey.trainNumber.data.isEmpty with
      | true =>
          rw [updateFirst_eq_none_iff.mpr (fun e _ => by
            simp [amendedSecondaryApplies, hemp])]
          rfl
      | false =>
          have hfun : (fun e : String × MergedJourneyData =>
              secondaryMatches ts c.journey am e.2) =
              (fun e => amendedSecondaryApplies ts e.2 c.journey) :=
            funext fun e =>
              secondaryMatches_eq_amended ts c.journey am harr hemp e.2
          exact congrArg (fun p => match updateFirst p
              (fun e => (e.1, mergeIntoExisting e.2 c.journey c.source fs ts))
              st with
            | some st' => st'
            | none => st ++ [(generateMergeKey c.journey,
                freshMerged c.source c.journey)]) hfun

/-- C1 witness: with the counterexample state, the secondary scan finds no
amended match, so the candidate starts its own singleton set. -/
theorem mergeStep_secondary_characterization_witness :
    mergeStep fsAms tsZur stC1 ⟨.DB, jCexB⟩ =
      stC1 ++ [(generateMergeKey jCexB, freshMerged .DB jCexB)] := by
  have h := mergeStep_secondary_characterization fsAms tsZur stC1 ⟨.DB, jCexB⟩
    (by decide)
  rw [h]
  decide

/-- For a candidate without a scheduled arrival the fuzzy fallback is
disabled, so one merge step changes the map's key list exactly by inserting
the candidate's primary key if absent. -/
theorem mergeStep_keys_of_no_arrival (fs ts : UnifiedStation)
    (st : List (String × MergedJourneyData)) (c : SourcedJourney)
    (harr : c.journey.arrival.scheduledArrival = none) :
    (mergeStep fs ts st c).map Prod.fst =
      insertKey (st.map Prod.fst) (generateMergeKey c.journey) := by
  simp only [mergeStep]
  rcases hup : updateFirst (fun e => e.1 == generateMergeKey c.journey)
      (fun e => (e.1, mergeIntoExisting e.2 c.journey c.source fs ts)) st
      with _ | st'
  · have hk : generateMergeKey c.journey ∉ st.map Prod.fst := by
      intro hmem
      obtain ⟨e, he, heq⟩ := List.mem_map.mp hmem
      have hfalse := updateFirst_eq_none_iff.mp hup e he
      rw [heq] at hfalse
      simp at hfalse
    rw [harr, hup]
    simp [insertKey, hk]
  · have hkeys : st'.map Prod.fst = st.map Prod.fst :=
      updateFirst_map Prod.fst hup (fun _ _ => rfl)
    have hk : generateMergeKey c.journey ∈ st.map Prod.fst := by
      obtain ⟨x, hx, hpx, _⟩ := updateFirst_exists_updated hup
      have : x.1 = generateMergeKey c.journey := by simpa using hpx
      exact this ▸ List.mem_map_of_mem Prod.fst hx
    rw [hup]
    simp [insertKey, hk, hkeys]

/-- Folding no-arrival candidates into the `byKey` map accumulates exactly
the first-occurrence insertion of their primary keys. -/
theorem foldl_keys_of_no_arrival (fs ts : UnifiedStation) :
    ∀ (l : List SourcedJourney) (st : List (String × MergedJourneyData)),
      (∀ cc ∈ l, cc.journey.arrival.scheduledArrival = none) →
      (l.foldl (mergeStep fs ts) st).map Prod.fst =
        (l.map (fun cc => generateMergeKey cc.journey)).foldl insertKey
          (st.map Prod.fst) := by
  intro l
  induction l with
  | nil => intro st _; rfl
  | cons cc t ih =>
      intro st hl
      simp only [List.foldl_cons, List.map_cons]
      rw [ih _ (fun x hx => hl x (by simp [hx])),
        mergeStep_keys_of_no_arrival fs ts st cc (hl cc (by simp))]

theorem foldl_insertKey_toFinset :
    ∀ (ks acc : List String),
      (ks.foldl insertKey acc).toFinset = acc.toFinset ∪ ks.toFinset := by
  intro ks
  induction ks with
  | nil => intro acc; simp
  | cons k t ih =>
      intro acc
      simp only [List.foldl_cons, ih, List.toFinset_cons]
      unfold insertKey
      split
      next hmem =>
        rw [Finset.union_insert, Finset.insert_eq_self.mpr
          (Finset.mem_union_left _ (List.mem_toFinset.mpr hmem))]
      next hmem =>
        rw [List.toFinset_append]
        simp [Finset.union_assoc, Finset.insert_eq]

theorem foldl_insertKey_nodup :
    ∀ (ks acc : List String), acc.Nodup → (ks.foldl insertKey acc).Nodup := by
  intro ks
  induction ks with
  | nil => intro acc h; exact h
  | cons k t ih =>
      intro acc h
      simp only [List.foldl_cons]
      refine ih _ ?_
      unfold insertKey
      split
      next => exact h
      next hmem => simp [List.nodup_append, h, hmem]

/-- C2 counterexample: the same two candidates in the two orders produce a
different number of match sets (1 versus 2) — the fuzzy secondary match is
asymmetric, because it compares the *existing set's* destination name against
the searched destination station. -/
theorem merge_grouping_depends_on_order :
    (([⟨.NS, jZur⟩, ⟨.DB, jElse⟩] : List SourcedJourney).Perm
      [⟨.DB, jElse⟩, ⟨.NS, jZur⟩]) ∧
    (mergeJourneys [⟨.NS, jZur⟩, ⟨.DB, jElse⟩] fsAms tsZur).length = 1 ∧
    (mergeJourneys [⟨.DB, jElse⟩, ⟨.NS, jZur⟩] fsAms tsZur).length = 2 :=
  ⟨List.Perm.swap (⟨.DB, jElse⟩ : SourcedJourney) ⟨.NS, jZur⟩ [], by decide,
    by decide⟩

/-- C2 (amended): when no candidate carries a scheduled arrival — so only the
primary merge key is in play and the fuzzy fallback never fires — feeding the
matcher any permutation of the same candidates yields the same set of merge
keys and the same number of match sets. With the fallback in play, order can
change the grouping (see the counterexample). -/
theorem mergeJourneys_order_independent_primary (fs ts : UnifiedStation)
    (l₁ l₂ : List SourcedJourney) (hperm : l₁.Perm l₂)
    (harr : ∀ cc ∈ l₁, cc.journey.arrival.scheduledArrival = none) :
    (mergeJourneysKeys l₁ fs ts).toFinset =
      (mergeJourneysKeys l₂ fs ts).toFinset ∧
    (mergeJourneys l₁ fs ts).length = (mergeJourneys l₂ fs ts).length := by
  have harr₂ : ∀ cc ∈ l₂, cc.journey.arrival.scheduledArrival = none :=
    fun cc hc => harr cc (hperm.mem_iff.mpr hc)
  have hk₁ : mergeJourneysKeys l₁ fs ts =
      (l₁.map (fun cc => generateMergeKey cc.journey)).foldl insertKey [] := by
    unfold mergeJourneysKeys
    rw [foldl_keys_of_no_arrival fs ts l₁ [] harr]
    rfl
  have hk₂ : mergeJourneysKeys l₂ fs ts =
      (l₂.map (fun cc => generateMergeKey cc.journey)).foldl insertKey [] := by
    unfold mergeJourneysKeys
    rw [foldl_keys_of_no_arrival fs ts l₂ [] harr₂]
    rfl
  have hmapperm := hperm.map (fun cc => generateMergeKey cc.journey)
  have hfin : (mergeJourneysKeys l₁ fs ts).toFinset =
      (mergeJourneysKeys l₂ fs ts).toFinset := by
    rw [hk₁, hk₂, foldl_insertKey_toFinset, foldl_insertKey_toFinset,
      List.toFinset_eq_of_perm _ _ hmapperm]
  refine ⟨hfin, ?_⟩
  have hlen : ∀ (l : List SourcedJourney),
      (mergeJourneys l fs ts).length = (mergeJourneysKeys l fs ts).length := by
    intro l
    unfold mergeJourneys mergeJourneysKeys
    simp
  have hnd₁ : (mergeJourneysKeys l₁ fs ts).Nodup := by
    rw [hk₁]; exact foldl_insertKey_nodup _ [] (by simp)
  have hnd₂ : (mergeJourneysKeys l₂ fs ts).Nodup := by
    rw [hk₂]; exact foldl_insertKey_nodup _ [] (by simp)
  rw [hlen l₁, hlen l₂, ← List.toFinset_card_of_nodup hnd₁,
    ← List.toFinset_card_of_nodup hnd₂, hfin]

/-- C2 witness: two no-arrival candidates, swapped, give the same key set and
set count. -/
theorem mergeJourneys_order_independent_primary_witness :
    (mergeJourneysKeys [⟨.NS, jNoArrA⟩, ⟨.DB, jNoArrB⟩] fsAms tsZur).toFinset =
      (mergeJourneysKeys [⟨.DB, jNoArrB⟩, ⟨.NS, jNoArrA⟩] fsAms tsZur).toFinset ∧
    (mergeJourneys [⟨.NS, jNoArrA⟩, ⟨.DB, jNoArrB⟩] fsAms tsZur).length =
      (mergeJourneys [⟨.DB, jNoArrB⟩, ⟨.NS, jNoArrA⟩] fsAms tsZur).length :=
  mergeJourneys_order_independent_primary fsAms tsZur _ _
    (List.Perm.swap (⟨.DB, jNoArrB⟩ : SourcedJourney) ⟨.NS, jNoArrA⟩ [])
    (by decide)

end Trainy
